import Mathlib

/-!
Verification of the Zoom OAuth-connection subsystem of the attendee
repository: a shallow embedding of the sync task
(bots/tasks/sync_zoom_oauth_connection_task.py), the validation task
(bots/tasks/validate_zoom_oauth_connections_task.py) and the
project-scoped REST access layer, together with theorems about the
behaviour of those embedded operations.

Conventions of the embedding:
- Python strings that may be absent become Option String; Python
  truthiness of such a value (None and the empty string are falsy) is
  the function pyTruthyStr.
- Database rows become Lean structures, the mapping table a list of
  rows, and each task a pure function from the pre-state and an
  environment (the outcomes of the outbound HTTP calls and the clock
  readings) to the post-state, the emitted webhook events and the
  exception the task re-raises, if any.
- Python exceptions become the inductive PyError: zoomAuth stands for
  ZoomAPIAuthenticationError, other for every other exception
  (ZoomAPIError, requests.RequestException, ...).
- Timestamps are natural numbers; timezone.now() readings are supplied
  by the environment (startTime for the reading taken at the start of
  the run, endTime for the readings taken at its end).
-/

/-- Python truthiness of an optional string: None and the empty string
are falsy, every other string is truthy. -/
def pyTruthyStr : Option String → Bool
  | none => false
  | some s => !(s == "")

/-- States of a ZoomOAuthConnection (bots/models.py, referenced as
ZoomOAuthConnectionStates by the tasks). -/
inductive ZoomOAuthConnectionStates where
  | CONNECTED
  | DISCONNECTED
deriving DecidableEq, Repr

/-- Per-project OAuth client registration (ZoomOAuthApp). Only the
fields the tasks and views read are embedded. -/
structure ZoomOAuthApp where
  id : Nat
  projectId : Nat
  client_id : Option String
  client_secret : Option String
deriving DecidableEq, Repr

/-- The JSON object stored in connection_failure_data by the sync task:
an error string and a timestamp. -/
structure ConnectionFailureData where
  error : String
  timestamp : Nat
deriving DecidableEq, Repr

/-- The encrypted credentials dict of a connection. The refresh_token
key is embedded explicitly; rest stands for the other keys, which the
code never touches. -/
structure Credentials where
  refresh_token : Option String
  rest : List (String × String)
deriving DecidableEq, Repr

/-- A ZoomOAuthConnection row, restricted to the fields the embedded
code reads or writes. -/
structure ZoomOAuthConnection where
  id : Nat
  object_id : String
  zoom_oauth_app_id : Nat
  state : ZoomOAuthConnectionStates
  connection_failure_data : Option ConnectionFailureData
  credentials : Option Credentials
  last_attempted_sync_at : Option Nat
  last_successful_sync_at : Option Nat
  last_successful_sync_started_at : Option Nat
deriving DecidableEq, Repr

/-- The JSON body of a successful token-endpoint response, restricted
to the fields the code reads. -/
structure TokenData where
  access_token : Option String
  refresh_token : Option String
deriving DecidableEq, Repr

/-- Outcome of the POST to the provider token endpoint: either a 2xx
response with a JSON body, or a requests.RequestException whose
response body is a JSON object with an optional error-code field
(errorCode is that field, body the whole JSON rendered as text). -/
inductive TokenEndpointResult where
  | success (tokenData : TokenData)
  | requestError (errorCode : Option String) (body : String)
deriving DecidableEq, Repr

/-- Python exceptions as the tasks classify them: zoomAuth is
ZoomAPIAuthenticationError, other is every other exception. -/
inductive PyError where
  | zoomAuth (msg : String)
  | other (msg : String)
deriving DecidableEq, Repr

/-- Whether an exception is a ZoomAPIAuthenticationError. -/
def PyError.isAuth : PyError → Bool
  | .zoomAuth _ => true
  | .other _ => false

/-- Embeds _raise_if_error_is_authentication_error: given the error
code field of the provider response and the rendered response body,
returns the ZoomAPIAuthenticationError it raises when the code is
invalid_grant or invalid_client, and none when it falls through. -/
def raise_if_error_is_authentication_error (errorCode : Option String) (body : String) :
    Option PyError :=
  if errorCode = some "invalid_grant" ∨ errorCode = some "invalid_client" then
    some (.zoomAuth ("Zoom Authentication error: " ++ body))
  else
    none

/-- Embeds _get_access_token: exchanges the stored refresh token for an
access token. Arguments are the connection's app, its stored
credentials, and the outcome of the POST to the token endpoint. On
success returns the access token together with the credentials as
persisted after the call (rotated when a fresh, truthy refresh_token
came back); on failure returns the raised exception. -/
def get_access_token (app : ZoomOAuthApp) (credentials : Option Credentials)
    (resp : TokenEndpointResult) : Except PyError (String × Option Credentials) :=
  match credentials with
  | none => .error (.zoomAuth "No credentials found for zoom oauth connection")
  | some creds =>
    if pyTruthyStr creds.refresh_token = false ∨ pyTruthyStr app.client_id = false ∨
        pyTruthyStr app.client_secret = false then
      .error (.zoomAuth "Missing refresh_token or client_secret")
    else
      match resp with
      | .requestError errorCode body =>
        match raise_if_error_is_authentication_error errorCode body with
        | some e => .error e
        | none =>
          .error (.other ("Failed to refresh Zoom access token. Response body: " ++ body))
      | .success tokenData =>
        if pyTruthyStr tokenData.access_token = false then
          .error (.other "No access_token in refresh response")
        else
          let access_token := tokenData.access_token.getD ""
          let new_refresh := tokenData.refresh_token
          if pyTruthyStr new_refresh = true ∧ new_refresh ≠ creds.refresh_token then
            .ok (access_token, some { creds with refresh_token := new_refresh })
          else
            .ok (access_token, some creds)

/-- A row of the ZoomMeetingToZoomOAuthConnectionMapping table. -/
structure ZoomMeetingToZoomOAuthConnectionMapping where
  zoom_oauth_app_id : Nat
  meeting_id : String
  zoom_oauth_connection_id : Nat
deriving DecidableEq, Repr

/-- The mapping table as a list of rows. -/
abbrev MappingTable := List ZoomMeetingToZoomOAuthConnectionMapping

/-- Whether a row carries the given (app, meeting_id) key. -/
def keyMatches (appId : Nat) (mid : String) (r : ZoomMeetingToZoomOAuthConnectionMapping) :
    Bool :=
  decide (r.zoom_oauth_app_id = appId ∧ r.meeting_id = mid)

/-- Embeds Django's update_or_create on the mapping table, looked up by
(zoom_oauth_app, meeting_id) with defaults setting
zoom_oauth_connection: when a row with the key exists it is updated to
the given connection and returned with created = false; otherwise a new
row is appended and returned with created = true. The table's unique
constraint on the key means at most one row matches; the embedding
updates every matching row, which coincides with updating the one. -/
def update_or_create (t : MappingTable) (appId : Nat) (mid : String) (connId : Nat) :
    MappingTable × ZoomMeetingToZoomOAuthConnectionMapping × Bool :=
  if t.any (keyMatches appId mid) then
    (t.map (fun r =>
        if keyMatches appId mid r then { r with zoom_oauth_connection_id := connId } else r),
      ⟨appId, mid, connId⟩, false)
  else
    (t ++ [⟨appId, mid, connId⟩], ⟨appId, mid, connId⟩, true)

/-- One iteration of the loop in
_upsert_zoom_meeting_to_zoom_oauth_connection_mapping: a falsy meeting
id (None or the empty string) is skipped with a warning; otherwise the
row is upserted by update_or_create, and the source's extra branch
re-saves the row when the returned object still references a different
connection (which, after update_or_create, it never does). -/
def upsertOne (conn : ZoomOAuthConnection) (t : MappingTable) (zoom_meeting_id : Option String) :
    MappingTable :=
  match zoom_meeting_id with
  | none => t
  | some mid =>
    if mid = "" then t
    else
      let step := update_or_create t conn.zoom_oauth_app_id mid conn.id
      if step.2.2 = false ∧ step.2.1.zoom_oauth_connection_id ≠ conn.id then
        step.1.map (fun r =>
          if keyMatches conn.zoom_oauth_app_id mid r then
            { r with zoom_oauth_connection_id := conn.id }
          else r)
      else
        step.1

/-- Embeds _upsert_zoom_meeting_to_zoom_oauth_connection_mapping:
left fold of upsertOne over the list of meeting ids. -/
def upsert_zoom_meeting_to_zoom_oauth_connection_mapping
    (zoom_meeting_ids : List (Option String)) (conn : ZoomOAuthConnection)
    (t : MappingTable) : MappingTable :=
  zoom_meeting_ids.foldl (upsertOne conn) t

/-- The connection id a mapping table associates with an
(app, meeting_id) key: the value of the first row with that key. -/
def lookupMapping (t : MappingTable) (appId : Nat) (mid : String) : Option Nat :=
  (t.find? (keyMatches appId mid)).map (fun r => r.zoom_oauth_connection_id)

/-- Number of rows of the table carrying a given key. -/
def keyCount (t : MappingTable) (appId : Nat) (mid : String) : Nat :=
  (t.filter (keyMatches appId mid)).length

/-- The table's uniqueness invariant: at most one row per
(app, meeting_id) key, as enforced by the database constraint. -/
def mappingWellFormed (t : MappingTable) : Prop :=
  ∀ appId mid, keyCount t appId mid ≤ 1

/-- A webhook event as the tasks emit it: the trigger is always
ZOOM_OAUTH_CONNECTION_STATE_CHANGE, the payload is built from the
connection after its update, so it carries the connection's id and its
state at emission time. -/
structure WebhookEvent where
  connId : Nat
  payloadState : ZoomOAuthConnectionStates
deriving DecidableEq, Repr

/-- Configuration of a Celery shared_task decorator as used by the two
tasks: whether every exception is auto-retried, whether exponential
backoff is enabled, and the retry cap. -/
structure SharedTaskConfig where
  autoretry_for_all_exceptions : Bool
  retry_backoff : Bool
  max_retries : Nat
deriving DecidableEq, Repr

/-- The decorator configuration of sync_zoom_oauth_connection. -/
def sync_zoom_oauth_connection_config : SharedTaskConfig :=
  { autoretry_for_all_exceptions := true, retry_backoff := true, max_retries := 6 }

/-- The decorator configuration of validate_zoom_oauth_connections. -/
def validate_zoom_oauth_connections_config : SharedTaskConfig :=
  { autoretry_for_all_exceptions := true, retry_backoff := true, max_retries := 1 }

/-- Environment of one run of the sync task: the outcome of the token
refresh POST, the outcomes of the meeting-list and personal-meeting-id
fetches (each either the fetched value or the exception raised), and
the clock readings. -/
structure SyncEnv where
  tokenResp : TokenEndpointResult
  meetings : Except PyError (List (Option String))
  pmi : Except PyError (Option String)
  startTime : Nat
  endTime : Nat
deriving Repr

/-- Result of one run of the sync task: the connection as persisted,
the mapping table, the emitted webhook events, and the exception the
task re-raises (none when it returns normally). -/
structure SyncResult where
  conn : ZoomOAuthConnection
  table : MappingTable
  webhooks : List WebhookEvent
  raised : Option PyError
deriving DecidableEq, Repr

/-- Embeds the body of the Celery task sync_zoom_oauth_connection: the
try block refreshes the token, lists the meetings, fetches the personal
meeting id, upserts the mapping rows and records the success; the
except ZoomAPIAuthenticationError clause disconnects the connection,
stores failure data and emits a webhook without re-raising; the generic
except clause stamps last_attempted_sync_at and re-raises. -/
def sync_zoom_oauth_connection (app : ZoomOAuthApp) (conn : ZoomOAuthConnection)
    (t : MappingTable) (env : SyncEnv) : SyncResult :=
  let handle := fun (e : PyError) (c : ZoomOAuthConnection) =>
    match e with
    | .zoomAuth msg =>
      let c2 := { c with state := .DISCONNECTED,
                         connection_failure_data := some ⟨msg, env.endTime⟩ }
      SyncResult.mk c2 t [⟨c2.id, c2.state⟩] none
    | .other msg =>
      SyncResult.mk { c with last_attempted_sync_at := some env.endTime } t []
        (some (.other msg))
  match get_access_token app conn.credentials env.tokenResp with
  | .error e => handle e conn
  | .ok (_, credsAfter) =>
    let conn1 := { conn with credentials := credsAfter }
    match env.meetings with
    | .error e => handle e conn1
    | .ok ms =>
      match env.pmi with
      | .error e => handle e conn1
      | .ok pmi =>
        let zoom_meeting_ids := ms ++ [pmi]
        let t2 := upsert_zoom_meeting_to_zoom_oauth_connection_mapping zoom_meeting_ids conn1 t
        let c2 := { conn1 with last_attempted_sync_at := some env.endTime }
        let c3 := { c2 with last_successful_sync_at := c2.last_attempted_sync_at,
                            last_successful_sync_started_at := some env.startTime,
                            state := .CONNECTED,
                            connection_failure_data := none }
        SyncResult.mk c3 t2 [] none

/-- Observer for the exception, if any, that the try block of the sync
task raises under a given environment: the first failure among the
token refresh, the meeting listing and the personal-meeting-id fetch. -/
def syncBodyError (app : ZoomOAuthApp) (conn : ZoomOAuthConnection) (env : SyncEnv) :
    Option PyError :=
  match get_access_token app conn.credentials env.tokenResp with
  | .error e => some e
  | .ok _ =>
    match env.meetings with
    | .error e => some e
    | .ok _ =>
      match env.pmi with
      | .error e => some e
      | .ok _ => none

/-- Character-list prefix test used by the substring search. -/
def charsPrefix : List Char → List Char → Bool
  | [], _ => true
  | _ :: _, [] => false
  | a :: as, b :: bs => (a = b) && charsPrefix as bs

/-- Character-list substring search. -/
def charsContain (pat : List Char) : List Char → Bool
  | [] => pat.isEmpty
  | c :: rest => charsPrefix pat (c :: rest) || charsContain pat rest

/-- Python's substring containment test (pat in s). -/
def strContains (s pat : String) : Bool :=
  charsContain pat.toList s.toList

/-- The failure-reason text the validation sweep looks for. -/
def invalidClientMessage : String := "Invalid client_id or client_secret"

/-- Embeds (connection_failure_data or \x7b\x7d).get("error"): the
stored failure reason of a connection, none when there is no failure
data. -/
def connection_failure_error (c : ZoomOAuthConnection) : Option String :=
  c.connection_failure_data.map (fun d => d.error)

/-- Result of the validation sweep for one connection: the connection
as persisted afterwards, the webhook emitted for it, if any, and
whether a token refresh was attempted for it. -/
structure SweepStepResult where
  conn : ZoomOAuthConnection
  webhook : Option WebhookEvent
  attempted_refresh : Bool
deriving DecidableEq, Repr

/-- Embeds one iteration of the loop of validate_zoom_oauth_connections
for a connection of the database: the queryset filter keeps only the
app's connections in state DISCONNECTED; a falsy stored failure reason
or one not containing invalidClientMessage is skipped; otherwise a
token refresh is attempted (refresh is its outcome: the returned access
token or the raised exception); a falsy token or an exception leaves
the connection untouched, a truthy token reconnects it, clears the
failure data and emits a webhook. -/
def validateStep (app : ZoomOAuthApp)
    (refresh : ZoomOAuthConnection → Except PyError (Option String))
    (c : ZoomOAuthConnection) : SweepStepResult :=
  if c.zoom_oauth_app_id ≠ app.id then ⟨c, none, false⟩
  else if c.state ≠ .DISCONNECTED then ⟨c, none, false⟩
  else
    match connection_failure_error c with
    | none => ⟨c, none, false⟩
    | some err =>
      if err = "" then ⟨c, none, false⟩
      else if strContains err invalidClientMessage = false then ⟨c, none, false⟩
      else
        match refresh c with
        | .error _ => ⟨c, none, true⟩
        | .ok tok =>
          if pyTruthyStr tok = false then ⟨c, none, true⟩
          else
            let c2 := { c with state := .CONNECTED, connection_failure_data := none }
            ⟨c2, some ⟨c2.id, c2.state⟩, true⟩

/-- Embeds the Celery task validate_zoom_oauth_connections over the
whole connection table: every connection of the database is processed
by validateStep (the queryset filter is the first two guards of the
step), independently of the others. -/
def validate_zoom_oauth_connections (app : ZoomOAuthApp)
    (refresh : ZoomOAuthConnection → Except PyError (Option String))
    (conns : List ZoomOAuthConnection) : List SweepStepResult :=
  conns.map (validateStep app refresh)

/-! ## Helper lemmas -/

theorem pyTruthyStr_iff (x : Option String) :
    pyTruthyStr x = true ↔ ∃ s, x = some s ∧ s ≠ "" := by
  cases x <;> simp [pyTruthyStr]

/-- Claim C7 (amended): for every successful call of the token refresh
function, the returned access token is the one of the provider
response; when the response carries a non-empty refresh_token different
from the stored one, the persisted credentials hold the new token; when
the response carries no refresh_token, an empty one, or the stored one,
the credentials are unchanged. -/
theorem claim_C7_refresh_token_rotation (app : ZoomOAuthApp) (creds : Credentials)
    (resp : TokenEndpointResult) (tok : String) (credsAfter : Option Credentials)
    (h : get_access_token app (some creds) resp = .ok (tok, credsAfter)) :
    (∃ td, resp = .success td ∧ td.access_token = some tok) ∧
    (∀ td, resp = .success td →
      (td.refresh_token = none ∨ td.refresh_token = some "" ∨
        td.refresh_token = creds.refresh_token) →
      credsAfter = some creds) ∧
    (∀ td r, resp = .success td → td.refresh_token = some r → r ≠ "" →
      some r ≠ creds.refresh_token →
      credsAfter = some { creds with refresh_token := some r }) := by
  unfold get_access_token at h
  dsimp only at h
  by_cases hguard : pyTruthyStr creds.refresh_token = false ∨
      pyTruthyStr app.client_id = false ∨ pyTruthyStr app.client_secret = false
  · rw [if_pos hguard] at h
    exact absurd h (by simp)
  · rw [if_neg hguard] at h
    cases resp with
    | requestError code body =>
      cases hr : raise_if_error_is_authentication_error code body <;> simp [hr] at h
    | success td =>
      dsimp only at h
      by_cases hat : pyTruthyStr td.access_token = false
      · rw [if_pos hat] at h
        exact absurd h (by simp)
      · rw [if_neg hat] at h
        have htd : ∃ s, td.access_token = some s ∧ s ≠ "" :=
          (pyTruthyStr_iff td.access_token).mp (by
            cases hx : pyTruthyStr td.access_token
            · exact absurd hx hat
            · rfl)
        obtain ⟨s, hs, hsne⟩ := htd
        by_cases hrot : pyTruthyStr td.refresh_token = true ∧
            td.refresh_token ≠ creds.refresh_token
        · rw [if_pos hrot] at h
          simp only [Except.ok.injEq, Prod.mk.injEq] at h
          obtain ⟨htok, hcreds⟩ := h
          refine ⟨⟨td, rfl, ?_⟩, ?_, ?_⟩
          · rw [hs] at htok ⊢
            simp only [Option.getD_some] at htok
            rw [htok]
          · intro td2 htd2 hcase
            cases htd2
            obtain ⟨hr1, hr2⟩ := hrot
            rcases hcase with hc | hc | hc
            · rw [hc] at hr1
              simp [pyTruthyStr] at hr1
            · rw [hc] at hr1
              simp [pyTruthyStr] at hr1
            · exact absurd hc hr2
          · intro td2 r htd2 hrr _ _
            cases htd2
            rw [← hcreds, hrr]
        · rw [if_neg hrot] at h
          simp only [Except.ok.injEq, Prod.mk.injEq] at h
          obtain ⟨htok, hcreds⟩ := h
          refine ⟨⟨td, rfl, ?_⟩, ?_, ?_⟩
          · rw [hs] at htok ⊢
            simp only [Option.getD_some] at htok
            rw [htok]
          · intro td2 htd2 _
            cases htd2
            exact hcreds.symm
          · intro td2 r htd2 hrr hrne hrdiff
            cases htd2
            exfalso
            apply hrot
            constructor
            · rw [hrr]
              simp [pyTruthyStr, hrne]
            · rw [hrr]
              exact hrdiff

/-- Sample app for exercising the token refresh on concrete inputs. -/
def c7app : ZoomOAuthApp := ⟨7, 70, some "cid7", some "secret7"⟩

/-- Sample stored credentials for the token refresh examples. -/
def c7creds : Credentials := ⟨some "old_refresh", []⟩

/-- Witness for claim C7: a concrete successful refresh whose response
rotates the refresh token, run through the theorem. -/
theorem claim_C7_refresh_token_rotation_witness :
    ∃ td, TokenEndpointResult.success ⟨some "at7", some "new_refresh"⟩ =
        TokenEndpointResult.success td ∧ td.access_token = some "at7" :=
  (claim_C7_refresh_token_rotation c7app c7creds
    (.success ⟨some "at7", some "new_refresh"⟩) "at7" (some ⟨some "new_refresh", []⟩)
    rfl).1

/-- Counterexample for claim C7 as stated: a successful refresh whose
response carries the refresh_token "" which differs from the stored
one, yet the stored credentials are left unchanged (the code only
persists a truthy rotated token), against the claim's demand that any
differing returned refresh_token be persisted. -/
theorem claim_C7_counterexample :
    get_access_token c7app (some c7creds) (.success ⟨some "at7", some ""⟩) =
      .ok ("at7", some c7creds) ∧
    (some "" : Option String) ≠ c7creds.refresh_token ∧
    c7creds.refresh_token = some "old_refresh" := by
  refine ⟨rfl, by decide, rfl⟩

/-- When the token endpoint replies with a request error whose error
code is invalid_grant or invalid_client — and the stored credentials
let the flow reach the request — the refresh raises the
authentication error built from the response body. -/
theorem get_access_token_auth_code (app : ZoomOAuthApp) (creds : Credentials)
    (code : Option String) (body : String)
    (hrt : pyTruthyStr creds.refresh_token = true)
    (hci : pyTruthyStr app.client_id = true)
    (hcs : pyTruthyStr app.client_secret = true)
    (hcode : code = some "invalid_grant" ∨ code = some "invalid_client") :
    get_access_token app (some creds) (.requestError code body) =
      .error (.zoomAuth ("Zoom Authentication error: " ++ body)) := by
  unfold get_access_token raise_if_error_is_authentication_error
  dsimp only
  rw [if_neg (by simp [hrt, hci, hcs]), if_pos hcode]

/-- Claim C1: a sync run whose token-refresh request fails with the
provider error code invalid_grant or invalid_client is handled as an
authentication failure — the connection is marked DISCONNECTED, the
rendered error and a timestamp are stored in connection_failure_data,
and nothing is re-raised — while any run whose body fails with a
non-authentication exception re-raises exactly that exception and
leaves the state and failure data untouched; the task's decorator
auto-retries every exception with exponential backoff capped at six
retries. -/
theorem claim_C1_sync_error_classification :
    (∀ (app : ZoomOAuthApp) (conn : ZoomOAuthConnection) (t : MappingTable) (env : SyncEnv)
        (code : Option String) (body : String) (creds : Credentials),
      env.tokenResp = .requestError code body →
      (code = some "invalid_grant" ∨ code = some "invalid_client") →
      conn.credentials = some creds →
      pyTruthyStr creds.refresh_token = true →
      pyTruthyStr app.client_id = true →
      pyTruthyStr app.client_secret = true →
      (sync_zoom_oauth_connection app conn t env).conn.state = .DISCONNECTED ∧
      (sync_zoom_oauth_connection app conn t env).conn.connection_failure_data =
        some ⟨"Zoom Authentication error: " ++ body, env.endTime⟩ ∧
      (sync_zoom_oauth_connection app conn t env).raised = none) ∧
    (∀ (app : ZoomOAuthApp) (conn : ZoomOAuthConnection) (t : MappingTable) (env : SyncEnv)
        (msg : String),
      syncBodyError app conn env = some (.other msg) →
      (sync_zoom_oauth_connection app conn t env).raised = some (.other msg) ∧
      (sync_zoom_oauth_connection app conn t env).conn.state = conn.state ∧
      (sync_zoom_oauth_connection app conn t env).conn.connection_failure_data =
        conn.connection_failure_data) ∧
    sync_zoom_oauth_connection_config.autoretry_for_all_exceptions = true ∧
    sync_zoom_oauth_connection_config.retry_backoff = true ∧
    sync_zoom_oauth_connection_config.max_retries = 6 := by
  refine ⟨?_, ?_, rfl, rfl, rfl⟩
  · intro app conn t env code body creds hresp hcode hcreds hrt hci hcs
    have hget : get_access_token app conn.credentials env.tokenResp =
        .error (.zoomAuth ("Zoom Authentication error: " ++ body)) := by
      rw [hcreds, hresp]
      exact get_access_token_auth_code app creds code body hrt hci hcs hcode
    simp only [sync_zoom_oauth_connection, hget]
    refine ⟨?_, ?_, ?_⟩ <;> trivial
  · intro app conn t env msg h
    unfold syncBodyError at h
    simp only [sync_zoom_oauth_connection]
    cases hget : get_access_token app conn.credentials env.tokenResp with
    | error e =>
      rw [hget] at h
      simp only [Option.some.injEq] at h
      subst h
      simp only []
      refine ⟨?_, ?_, ?_⟩ <;> trivial
    | ok p =>
      rw [hget] at h
      cases hm : env.meetings with
      | error e =>
        rw [hm] at h
        simp only [Option.some.injEq] at h
        subst h
        simp only [hm]
        refine ⟨?_, ?_, ?_⟩ <;> trivial
      | ok ms =>
        rw [hm] at h
        cases hp : env.pmi with
        | error e =>
          rw [hp] at h
          simp only [Option.some.injEq] at h
          subst h
          simp only [hm, hp]
          refine ⟨?_, ?_, ?_⟩ <;> trivial
        | ok pmi =>
          rw [hp] at h
          simp at h

/-- Sample app for the C1 scenario. -/
def c1app : ZoomOAuthApp := ⟨1, 10, some "cid1", some "secret1"⟩

/-- Sample connection for the C1 scenario. -/
def c1conn : ZoomOAuthConnection :=
  ⟨1, "zoc_1", 1, .CONNECTED, none, some ⟨some "rt1", []⟩, none, none, none⟩

/-- Sample environment for the C1 scenario: the token refresh fails
with the provider error code invalid_grant. -/
def c1env : SyncEnv :=
  ⟨.requestError (some "invalid_grant") "errbody1", .ok [], .ok none, 3, 4⟩

/-- Witness for claim C1: running the sync task on the concrete
invalid_grant scenario disconnects the connection. -/
theorem claim_C1_sync_error_classification_witness :
    (sync_zoom_oauth_connection c1app c1conn [] c1env).conn.state = .DISCONNECTED :=
  (claim_C1_sync_error_classification.1 c1app c1conn [] c1env (some "invalid_grant")
    "errbody1" ⟨some "rt1", []⟩ rfl (Or.inl rfl) rfl rfl rfl rfl).1

/-- Claim C2: a sync run in which the token refresh, the meeting
listing and the personal-meeting-id fetch all succeed upserts exactly
the listed meeting ids plus the personal meeting id, sets the state to
CONNECTED, clears connection_failure_data, records
last_attempted_sync_at equal to last_successful_sync_at, sets
last_successful_sync_started_at to the start-of-run reading, and
re-raises nothing. -/
theorem claim_C2_sync_success (app : ZoomOAuthApp) (conn : ZoomOAuthConnection)
    (t : MappingTable) (env : SyncEnv) (tok : String) (credsAfter : Option Credentials)
    (ms : List (Option String)) (pmi : Option String)
    (h1 : get_access_token app conn.credentials env.tokenResp = .ok (tok, credsAfter))
    (h2 : env.meetings = .ok ms)
    (h3 : env.pmi = .ok pmi) :
    (sync_zoom_oauth_connection app conn t env).conn.state = .CONNECTED ∧
    (sync_zoom_oauth_connection app conn t env).conn.connection_failure_data = none ∧
    (sync_zoom_oauth_connection app conn t env).conn.last_attempted_sync_at =
      some env.endTime ∧
    (sync_zoom_oauth_connection app conn t env).conn.last_successful_sync_at =
      (sync_zoom_oauth_connection app conn t env).conn.last_attempted_sync_at ∧
    (sync_zoom_oauth_connection app conn t env).conn.last_successful_sync_started_at =
      some env.startTime ∧
    (sync_zoom_oauth_connection app conn t env).table =
      upsert_zoom_meeting_to_zoom_oauth_connection_mapping (ms ++ [pmi])
        { conn with credentials := credsAfter } t ∧
    (sync_zoom_oauth_connection app conn t env).raised = none := by
  simp only [sync_zoom_oauth_connection, h1, h2, h3]
  refine ⟨?_, ?_, ?_, ?_, ?_, ?_, ?_⟩ <;> trivial

/-- Sample app for the C2 scenario. -/
def c2app : ZoomOAuthApp := ⟨2, 20, some "cid2", some "secret2"⟩

/-- Sample connection for the C2 scenario: previously disconnected. -/
def c2conn : ZoomOAuthConnection :=
  ⟨2, "zoc_2", 2, .DISCONNECTED, some ⟨"old failure", 1⟩, some ⟨some "rt2", []⟩,
    none, none, none⟩

/-- Sample environment for the C2 scenario: every outbound call
succeeds, two meetings plus a personal meeting id are listed. -/
def c2env : SyncEnv :=
  ⟨.success ⟨some "at2", none⟩, .ok [some "111", some "222"], .ok (some "333"), 5, 6⟩

/-- Witness for claim C2: running the sync task on the concrete
all-success scenario reconnects the connection. -/
theorem claim_C2_sync_success_witness :
    (sync_zoom_oauth_connection c2app c2conn [] c2env).conn.state = .CONNECTED :=
  (claim_C2_sync_success c2app c2conn [] c2env "at2" (some ⟨some "rt2", []⟩)
    [some "111", some "222"] (some "333") rfl rfl rfl).1

/-! ## Mapping-table lemmas -/

theorem keyMatches_set (a : Nat) (m : String) (c : Nat)
    (r : ZoomMeetingToZoomOAuthConnectionMapping) :
    keyMatches a m { r with zoom_oauth_connection_id := c } = keyMatches a m r := rfl

theorem set_eq_self (c : Nat) (r : ZoomMeetingToZoomOAuthConnectionMapping)
    (h : r.zoom_oauth_connection_id = c) :
    { r with zoom_oauth_connection_id := c } = r := by
  cases r
  simp only at h
  rw [h]

theorem find?_map_set_same (a : Nat) (m : String) (c : Nat) (t : MappingTable) :
    (t.map (fun r =>
        if keyMatches a m r then { r with zoom_oauth_connection_id := c } else r)).find?
        (keyMatches a m) =
      (t.find? (keyMatches a m)).map (fun r => { r with zoom_oauth_connection_id := c }) := by
  induction t with
  | nil => rfl
  | cons r rest ih =>
    by_cases hr : keyMatches a m r = true
    · simp only [List.map_cons, if_pos hr]
      rw [List.find?_cons_of_pos _ (by rw [keyMatches_set]; exact hr),
        List.find?_cons_of_pos _ hr]
      rfl
    · simp only [List.map_cons, if_neg hr]
      rw [List.find?_cons_of_neg _ hr, List.find?_cons_of_neg _ hr]
      exact ih

theorem keyMatches_both {a a2 : Nat} {m m2 : String}
    {r : ZoomMeetingToZoomOAuthConnectionMapping}
    (h1 : keyMatches a m r = true) (h2 : keyMatches a2 m2 r = true) :
    a = a2 ∧ m = m2 := by
  unfold keyMatches at h1 h2
  rw [decide_eq_true_eq] at h1 h2
  exact ⟨h1.1.symm.trans h2.1, h1.2.symm.trans h2.2⟩

theorem find?_map_set_other (a a2 : Nat) (m m2 : String) (c : Nat) (t : MappingTable)
    (hk : ¬(a2 = a ∧ m2 = m)) :
    (t.map (fun r =>
        if keyMatches a m r then { r with zoom_oauth_connection_id := c } else r)).find?
        (keyMatches a2 m2) =
      t.find? (keyMatches a2 m2) := by
  induction t with
  | nil => rfl
  | cons r rest ih =>
    by_cases hr : keyMatches a m r = true
    · have hr2 : keyMatches a2 m2 r = false := by
        cases hx : keyMatches a2 m2 r
        · rfl
        · exact absurd ⟨(keyMatches_both hx hr).1, (keyMatches_both hx hr).2⟩ hk
      simp only [List.map_cons, if_pos hr]
      rw [List.find?_cons_of_neg _ (by rw [keyMatches_set]; simp [hr2]),
        List.find?_cons_of_neg _ (by simp [hr2])]
      exact ih
    · simp only [List.map_cons, if_neg hr]
      by_cases hr2 : keyMatches a2 m2 r = true
      · rw [List.find?_cons_of_pos _ hr2, List.find?_cons_of_pos _ hr2]
      · rw [List.find?_cons_of_neg _ (by simp [hr2]), List.find?_cons_of_neg _ (by simp [hr2])]
        exact ih

theorem find?_append_table (p : ZoomMeetingToZoomOAuthConnectionMapping → Bool)
    (t : MappingTable) (r : ZoomMeetingToZoomOAuthConnectionMapping) :
    (t ++ [r]).find? p = ((t.find? p).orElse (fun _ => if p r then some r else none)) := by
  induction t with
  | nil =>
    by_cases hr : p r = true
    · simp [List.find?_cons_of_pos _ hr, hr, Option.orElse]
    · simp only [List.nil_append]
      rw [List.find?_cons_of_neg _ (by simp [hr])]
      simp [hr, Option.orElse]
  | cons x rest ih =>
    by_cases hx : p x = true
    · simp only [List.cons_append]
      rw [List.find?_cons_of_pos _ hx, List.find?_cons_of_pos _ hx]
      rfl
    · simp only [List.cons_append]
      rw [List.find?_cons_of_neg _ (by simp [hx]), List.find?_cons_of_neg _ (by simp [hx])]
      exact ih

theorem upsertOne_falsy (conn : ZoomOAuthConnection) (t : MappingTable)
    (mid : Option String) (h : mid = none ∨ mid = some "") :
    upsertOne conn t mid = t := by
  rcases h with h | h <;> rw [h] <;> rfl

theorem upsertOne_some_any_true (conn : ZoomOAuthConnection) (t : MappingTable) (s : String)
    (hs : s ≠ "") (hany : t.any (keyMatches conn.zoom_oauth_app_id s) = true) :
    upsertOne conn t (some s) =
      t.map (fun r =>
        if keyMatches conn.zoom_oauth_app_id s r then
          { r with zoom_oauth_connection_id := conn.id }
        else r) := by
  simp [upsertOne, update_or_create, hs, hany]

theorem upsertOne_some_any_false (conn : ZoomOAuthConnection) (t : MappingTable) (s : String)
    (hs : s ≠ "") (hany : t.any (keyMatches conn.zoom_oauth_app_id s) = false) :
    upsertOne conn t (some s) = t ++ [⟨conn.zoom_oauth_app_id, s, conn.id⟩] := by
  simp [upsertOne, update_or_create, hs, hany]

theorem keyMatches_self (a : Nat) (s : String) (c : Nat) :
    keyMatches a s ⟨a, s, c⟩ = true := by
  simp [keyMatches]

theorem lookupMapping_upsertOne_self (conn : ZoomOAuthConnection) (t : MappingTable)
    (s : String) (hs : s ≠ "") :
    lookupMapping (upsertOne conn t (some s)) conn.zoom_oauth_app_id s = some conn.id := by
  cases hany : t.any (keyMatches conn.zoom_oauth_app_id s) with
  | true =>
    rw [upsertOne_some_any_true conn t s hs hany]
    unfold lookupMapping
    rw [find?_map_set_same]
    have hsome : (t.find? (keyMatches conn.zoom_oauth_app_id s)).isSome := by
      rw [List.find?_isSome]
      exact List.any_eq_true.mp hany
    obtain ⟨r, hr⟩ := Option.isSome_iff_exists.mp hsome
    rw [hr]
    rfl
  | false =>
    rw [upsertOne_some_any_false conn t s hs hany]
    unfold lookupMapping
    rw [find?_append_table]
    have hnone : t.find? (keyMatches conn.zoom_oauth_app_id s) = none := by
      rw [List.find?_eq_none]
      intro x hx hpx
      have := List.any_eq_true.mpr ⟨x, hx, hpx⟩
      rw [hany] at this
      exact absurd this (by simp)
    rw [hnone]
    simp [Option.orElse, keyMatches_self]

theorem lookupMapping_upsertOne_other (conn : ZoomOAuthConnection) (t : MappingTable)
    (x : Option String) (appId : Nat) (mid : String)
    (h : ¬(x = some mid ∧ mid ≠ "" ∧ appId = conn.zoom_oauth_app_id)) :
    lookupMapping (upsertOne conn t x) appId mid = lookupMapping t appId mid := by
  match x with
  | none => rfl
  | some s =>
    by_cases hs : s = ""
    · rw [upsertOne_falsy conn t (some s) (Or.inr (by rw [hs]))]
    · have hk : ¬(appId = conn.zoom_oauth_app_id ∧ mid = s) := by
        intro ⟨ha, hm⟩
        exact h ⟨by rw [hm], by rw [hm]; exact hs, ha⟩
      cases hany : t.any (keyMatches conn.zoom_oauth_app_id s) with
      | true =>
        rw [upsertOne_some_any_true conn t s hs hany]
        unfold lookupMapping
        rw [find?_map_set_other _ _ _ _ _ _ hk]
      | false =>
        rw [upsertOne_some_any_false conn t s hs hany]
        unfold lookupMapping
        rw [find?_append_table]
        have hrow : keyMatches appId mid
            (⟨conn.zoom_oauth_app_id, s, conn.id⟩ :
              ZoomMeetingToZoomOAuthConnectionMapping) = false := by
          cases hx : keyMatches appId mid
              (⟨conn.zoom_oauth_app_id, s, conn.id⟩ :
                ZoomMeetingToZoomOAuthConnectionMapping)
          · rfl
          · unfold keyMatches at hx
            rw [decide_eq_true_eq] at hx
            exact absurd ⟨hx.1.symm, hx.2.symm⟩ hk
        rw [hrow]
        cases t.find? (keyMatches appId mid) <;> simp [Option.orElse]

theorem keyMatches_after_set_branch (a a2 : Nat) (m m2 : String) (c : Nat)
    (r : ZoomMeetingToZoomOAuthConnectionMapping) :
    keyMatches a2 m2
        (if keyMatches a m r then { r with zoom_oauth_connection_id := c } else r) =
      keyMatches a2 m2 r := by
  by_cases hr : keyMatches a m r = true
  · rw [if_pos hr, keyMatches_set]
  · rw [if_neg hr]

theorem keyCount_map_set (a a2 : Nat) (m m2 : String) (c : Nat) (t : MappingTable) :
    keyCount (t.map (fun r =>
        if keyMatches a m r then { r with zoom_oauth_connection_id := c } else r))
      a2 m2 = keyCount t a2 m2 := by
  induction t with
  | nil => rfl
  | cons r rest ih =>
    unfold keyCount at ih ⊢
    simp only [List.map_cons, List.filter_cons, keyMatches_after_set_branch]
    by_cases hr : keyMatches a2 m2 r = true
    · simp only [hr, if_true, List.length_cons]
      rw [ih]
    · simp only [hr]
      exact ih

theorem keyCount_append_row (t : MappingTable) (r : ZoomMeetingToZoomOAuthConnectionMapping)
    (a : Nat) (m : String) :
    keyCount (t ++ [r]) a m = keyCount t a m + (if keyMatches a m r then 1 else 0) := by
  unfold keyCount
  rw [List.filter_append, List.length_append]
  simp only [List.filter_cons, List.filter_nil]
  by_cases hr : keyMatches a m r = true
  · simp [hr]
  · simp [hr]

theorem keyCount_zero_of_any_false (t : MappingTable) (a : Nat) (m : String)
    (hany : t.any (keyMatches a m) = false) : keyCount t a m = 0 := by
  unfold keyCount
  rw [List.length_eq_zero, List.filter_eq_nil_iff]
  intro x hx hpx
  have := List.any_eq_true.mpr ⟨x, hx, hpx⟩
  rw [hany] at this
  exact absurd this (by simp)

theorem upsertOne_wellFormed (conn : ZoomOAuthConnection) (t : MappingTable)
    (x : Option String) (h : mappingWellFormed t) :
    mappingWellFormed (upsertOne conn t x) := by
  match x with
  | none => exact h
  | some s =>
    by_cases hs : s = ""
    · rw [upsertOne_falsy conn t (some s) (Or.inr (by rw [hs]))]
      exact h
    · cases hany : t.any (keyMatches conn.zoom_oauth_app_id s) with
      | true =>
        rw [upsertOne_some_any_true conn t s hs hany]
        intro a2 m2
        rw [keyCount_map_set]
        exact h a2 m2
      | false =>
        rw [upsertOne_some_any_false conn t s hs hany]
        intro a2 m2
        rw [keyCount_append_row]
        by_cases hr : keyMatches a2 m2
            (⟨conn.zoom_oauth_app_id, s, conn.id⟩ :
              ZoomMeetingToZoomOAuthConnectionMapping) = true
        · have hkey : a2 = conn.zoom_oauth_app_id ∧ m2 = s := by
            unfold keyMatches at hr
            rw [decide_eq_true_eq] at hr
            exact ⟨hr.1.symm, hr.2.symm⟩
          rw [if_pos hr, hkey.1, hkey.2,
            keyCount_zero_of_any_false t conn.zoom_oauth_app_id s hany]
        · rw [if_neg hr]
          simpa using h a2 m2

/-- The table has a row for the key (a, m) and every such row points to
connection c. -/
def pointedAt (t : MappingTable) (a : Nat) (m : String) (c : Nat) : Prop :=
  t.any (keyMatches a m) = true ∧
  ∀ r ∈ t, keyMatches a m r = true → r.zoom_oauth_connection_id = c

theorem any_map_set (a a2 : Nat) (m m2 : String) (c : Nat) (t : MappingTable) :
    (t.map (fun r =>
        if keyMatches a m r then { r with zoom_oauth_connection_id := c } else r)).any
        (keyMatches a2 m2) =
      t.any (keyMatches a2 m2) := by
  induction t with
  | nil => rfl
  | cons r rest ih =>
    simp only [List.map_cons, List.any_cons, keyMatches_after_set_branch]
    rw [ih]

theorem upsertOne_pointed_self (conn : ZoomOAuthConnection) (t : MappingTable)
    (s : String) (hs : s ≠ "") :
    pointedAt (upsertOne conn t (some s)) conn.zoom_oauth_app_id s conn.id := by
  cases hany : t.any (keyMatches conn.zoom_oauth_app_id s) with
  | true =>
    rw [upsertOne_some_any_true conn t s hs hany]
    constructor
    · rw [any_map_set]
      exact hany
    · intro r2 hr2 hmatch
      obtain ⟨r, hr, hre⟩ := List.mem_map.mp hr2
      by_cases hrm : keyMatches conn.zoom_oauth_app_id s r = true
      · rw [if_pos hrm] at hre
        rw [← hre]
      · rw [if_neg hrm] at hre
        rw [← hre] at hmatch
        exact absurd hmatch hrm
  | false =>
    rw [upsertOne_some_any_false conn t s hs hany]
    constructor
    · rw [List.any_append]
      simp [keyMatches_self]
    · intro r hr hmatch
      rcases List.mem_append.mp hr with hr | hr
      · have := List.any_eq_true.mpr ⟨r, hr, hmatch⟩
        rw [hany] at this
        exact absurd this (by simp)
      · rw [List.mem_singleton.mp hr]

theorem upsertOne_preserves_pointed (conn : ZoomOAuthConnection) (t : MappingTable)
    (x : Option String) (a : Nat) (m : String)
    (h : pointedAt t a m conn.id) :
    pointedAt (upsertOne conn t x) a m conn.id := by
  match x with
  | none => exact h
  | some s =>
    by_cases hs : s = ""
    · rw [upsertOne_falsy conn t (some s) (Or.inr (by rw [hs]))]
      exact h
    · cases hany : t.any (keyMatches conn.zoom_oauth_app_id s) with
      | true =>
        rw [upsertOne_some_any_true conn t s hs hany]
        constructor
        · rw [any_map_set]
          exact h.1
        · intro r2 hr2 hmatch
          obtain ⟨r, hr, hre⟩ := List.mem_map.mp hr2
          by_cases hrm : keyMatches conn.zoom_oauth_app_id s r = true
          · rw [if_pos hrm] at hre
            rw [← hre]
          · rw [if_neg hrm] at hre
            rw [← hre] at hmatch ⊢
            exact h.2 r hr hmatch
      | false =>
        rw [upsertOne_some_any_false conn t s hs hany]
        constructor
        · rw [List.any_append]
          rw [h.1]
          rfl
        · intro r hr hmatch
          rcases List.mem_append.mp hr with hr | hr
          · exact h.2 r hr hmatch
          · rw [List.mem_singleton.mp hr]

theorem map_eq_self_table (t : MappingTable)
    (f : ZoomMeetingToZoomOAuthConnectionMapping → ZoomMeetingToZoomOAuthConnectionMapping)
    (h : ∀ r ∈ t, f r = r) : t.map f = t := by
  induction t with
  | nil => rfl
  | cons r rest ih =>
    simp only [List.map_cons]
    rw [h r (List.mem_cons_self r rest), ih (fun r2 hr2 => h r2 (List.mem_cons_of_mem r hr2))]

theorem upsertOne_id_of_pointed (conn : ZoomOAuthConnection) (t : MappingTable)
    (s : String) (hs : s ≠ "")
    (h : pointedAt t conn.zoom_oauth_app_id s conn.id) :
    upsertOne conn t (some s) = t := by
  rw [upsertOne_some_any_true conn t s hs h.1]
  apply map_eq_self_table
  intro r hr
  by_cases hrm : keyMatches conn.zoom_oauth_app_id s r = true
  · rw [if_pos hrm]
    exact set_eq_self conn.id r (h.2 r hr hrm)
  · rw [if_neg hrm]

theorem upsert_preserves_pointed (conn : ZoomOAuthConnection) (ids : List (Option String))
    (t : MappingTable) (a : Nat) (m : String)
    (h : pointedAt t a m conn.id) :
    pointedAt (upsert_zoom_meeting_to_zoom_oauth_connection_mapping ids conn t)
      a m conn.id := by
  induction ids generalizing t with
  | nil => exact h
  | cons x rest ih =>
    exact ih (upsertOne conn t x) (upsertOne_preserves_pointed conn t x a m h)

theorem upsert_establishes_pointed (conn : ZoomOAuthConnection) (ids : List (Option String))
    (t : MappingTable) (s : String) (hmem : (some s) ∈ ids) (hs : s ≠ "") :
    pointedAt (upsert_zoom_meeting_to_zoom_oauth_connection_mapping ids conn t)
      conn.zoom_oauth_app_id s conn.id := by
  induction ids generalizing t with
  | nil => exact absurd hmem (List.not_mem_nil _)
  | cons x rest ih =>
    rcases List.mem_cons.mp hmem with hx | hx
    · by_cases hr : (some s) ∈ rest
      · exact ih (upsertOne conn t x) hr
      · show pointedAt
          (upsert_zoom_meeting_to_zoom_oauth_connection_mapping rest conn
            (upsertOne conn t x)) conn.zoom_oauth_app_id s conn.id
        apply upsert_preserves_pointed
        rw [← hx]
        exact upsertOne_pointed_self conn t s hs
    · exact ih (upsertOne conn t x) hx

theorem upsert_id_of_pointed (conn : ZoomOAuthConnection) (ids : List (Option String))
    (t : MappingTable)
    (h : ∀ s, (some s) ∈ ids → s ≠ "" →
      pointedAt t conn.zoom_oauth_app_id s conn.id) :
    upsert_zoom_meeting_to_zoom_oauth_connection_mapping ids conn t = t := by
  induction ids generalizing t with
  | nil => rfl
  | cons x rest ih =>
    have hstep : upsertOne conn t x = t := by
      match x with
      | none => rfl
      | some s =>
        by_cases hs : s = ""
        · exact upsertOne_falsy conn t (some s) (Or.inr (by rw [hs]))
        · exact upsertOne_id_of_pointed conn t s hs
            (h s (List.mem_cons_self _ _) hs)
    show upsert_zoom_meeting_to_zoom_oauth_connection_mapping rest conn
        (upsertOne conn t x) = t
    rw [hstep]
    exact ih t (fun s hsm hs => h s (List.mem_cons_of_mem x hsm) hs)

theorem pointedAt_lookup (t : MappingTable) (a : Nat) (m : String) (c : Nat)
    (h : pointedAt t a m c) : lookupMapping t a m = some c := by
  have hsome : (t.find? (keyMatches a m)).isSome := by
    rw [List.find?_isSome]
    exact List.any_eq_true.mp h.1
  obtain ⟨r, hr⟩ := Option.isSome_iff_exists.mp hsome
  unfold lookupMapping
  rw [hr]
  have hmem := List.mem_of_find?_eq_some hr
  have hp := List.find?_some hr
  rw [Option.map_some']
  rw [h.2 r hmem hp]

theorem upsert_lookup_other (conn : ZoomOAuthConnection) (ids : List (Option String))
    (t : MappingTable) (appId : Nat) (mid : String)
    (h : ¬(appId = conn.zoom_oauth_app_id ∧ (some mid) ∈ ids ∧ mid ≠ "")) :
    lookupMapping (upsert_zoom_meeting_to_zoom_oauth_connection_mapping ids conn t)
        appId mid =
      lookupMapping t appId mid := by
  induction ids generalizing t with
  | nil => rfl
  | cons x rest ih =>
    have hrest : ¬(appId = conn.zoom_oauth_app_id ∧ (some mid) ∈ rest ∧ mid ≠ "") := by
      intro ⟨ha, hm, hne⟩
      exact h ⟨ha, List.mem_cons_of_mem x hm, hne⟩
    have hstep : ¬(x = some mid ∧ mid ≠ "" ∧ appId = conn.zoom_oauth_app_id) := by
      intro ⟨hx, hne, ha⟩
      exact h ⟨ha, by rw [← hx]; exact List.mem_cons_self _ _, hne⟩
    show lookupMapping
        (upsert_zoom_meeting_to_zoom_oauth_connection_mapping rest conn
          (upsertOne conn t x)) appId mid = lookupMapping t appId mid
    rw [ih (upsertOne conn t x) hrest,
      lookupMapping_upsertOne_other conn t x appId mid hstep]

theorem upsert_wellFormed (conn : ZoomOAuthConnection) (ids : List (Option String))
    (t : MappingTable) (h : mappingWellFormed t) :
    mappingWellFormed (upsert_zoom_meeting_to_zoom_oauth_connection_mapping ids conn t) := by
  induction ids generalizing t with
  | nil => exact h
  | cons x rest ih =>
    exact ih (upsertOne conn t x) (upsertOne_wellFormed conn t x h)

/-- Claim C3 (amended): the mapping upsert skips falsy meeting ids
(null and the empty string); for every truthy listed id the resulting
table maps the key (app of the connection, id) to the given connection
— a row is created when none existed, an existing row pointing
elsewhere is repointed; every other (app, meeting_id) key keeps exactly
the association it had; and the one-row-per-key invariant is
preserved. -/
theorem claim_C3_upsert_mapping :
    (∀ (conn : ZoomOAuthConnection) (t : MappingTable) (mid : Option String),
      mid = none ∨ mid = some "" → upsertOne conn t mid = t) ∧
    (∀ (ids : List (Option String)) (conn : ZoomOAuthConnection) (t : MappingTable)
        (s : String), (some s) ∈ ids → s ≠ "" →
      lookupMapping (upsert_zoom_meeting_to_zoom_oauth_connection_mapping ids conn t)
        conn.zoom_oauth_app_id s = some conn.id) ∧
    (∀ (ids : List (Option String)) (conn : ZoomOAuthConnection) (t : MappingTable)
        (appId : Nat) (mid : String),
      ¬(appId = conn.zoom_oauth_app_id ∧ (some mid) ∈ ids ∧ mid ≠ "") →
      lookupMapping (upsert_zoom_meeting_to_zoom_oauth_connection_mapping ids conn t)
          appId mid =
        lookupMapping t appId mid) ∧
    (∀ (ids : List (Option String)) (conn : ZoomOAuthConnection) (t : MappingTable),
      mappingWellFormed t →
      mappingWellFormed
        (upsert_zoom_meeting_to_zoom_oauth_connection_mapping ids conn t)) := by
  refine ⟨upsertOne_falsy, ?_, ?_, ?_⟩
  · intro ids conn t s hmem hs
    exact pointedAt_lookup _ _ _ _ (upsert_establishes_pointed conn ids t s hmem hs)
  · intro ids conn t appId mid h
    exact upsert_lookup_other conn ids t appId mid h
  · intro ids conn t h
    exact upsert_wellFormed conn ids t h

/-- Sample connection for the C3 scenarios. -/
def c3conn : ZoomOAuthConnection :=
  ⟨3, "zoc_3", 30, .CONNECTED, none, none, none, none, none⟩

/-- Witness for claim C3: upserting the concrete id list with one null,
one fresh and one foreign-owned id repoints the key to the connection. -/
theorem claim_C3_upsert_mapping_witness :
    lookupMapping
        (upsert_zoom_meeting_to_zoom_oauth_connection_mapping [none, some "m1"] c3conn
          [⟨30, "m1", 99⟩])
        c3conn.zoom_oauth_app_id "m1" = some c3conn.id :=
  claim_C3_upsert_mapping.2.1 [none, some "m1"] c3conn [⟨30, "m1", 99⟩] "m1"
    (by simp) (by decide)

/-- Counterexample for claim C3 as stated: the empty string is a
non-null meeting id with no existing row, yet upserting it creates no
row — the loop's falsy test skips it, against the claim's demand that
every non-null id without an existing row get one. -/
theorem claim_C3_counterexample :
    upsert_zoom_meeting_to_zoom_oauth_connection_mapping [some ""] c3conn [] = [] ∧
    (some "" : Option String) ≠ none ∧
    lookupMapping
        (upsert_zoom_meeting_to_zoom_oauth_connection_mapping [some ""] c3conn [])
        c3conn.zoom_oauth_app_id "" = none := by
  refine ⟨rfl, by simp, rfl⟩

/-- Claim C8: the mapping upsert is idempotent — applying it twice with
the same meeting-id list and connection leaves the table exactly as
applying it once. -/
theorem claim_C8_upsert_idempotent (ids : List (Option String))
    (conn : ZoomOAuthConnection) (t : MappingTable) :
    upsert_zoom_meeting_to_zoom_oauth_connection_mapping ids conn
        (upsert_zoom_meeting_to_zoom_oauth_connection_mapping ids conn t) =
      upsert_zoom_meeting_to_zoom_oauth_connection_mapping ids conn t :=
  upsert_id_of_pointed conn ids _
    (fun s hmem hs => upsert_establishes_pointed conn ids t s hmem hs)

/-! ## Validation sweep lemmas -/

/-- Eligibility of a connection for the validation sweep: it belongs to
the app, is disconnected, and its stored failure reason contains the
invalid-client message. -/
def sweepEligible (app : ZoomOAuthApp) (c : ZoomOAuthConnection) : Prop :=
  c.zoom_oauth_app_id = app.id ∧ c.state = .DISCONNECTED ∧
  ∃ d, c.connection_failure_data = some d ∧
    strContains d.error invalidClientMessage = true

theorem validateStep_ineligible (app : ZoomOAuthApp)
    (refresh : ZoomOAuthConnection → Except PyError (Option String))
    (c : ZoomOAuthConnection) (h : ¬ sweepEligible app c) :
    validateStep app refresh c = ⟨c, none, false⟩ := by
  unfold validateStep
  by_cases h1 : c.zoom_oauth_app_id ≠ app.id
  · rw [if_pos h1]
  · rw [if_neg h1]
    by_cases h2 : c.state ≠ .DISCONNECTED
    · rw [if_pos h2]
    · rw [if_neg h2]
      rw [not_not] at h1 h2
      cases hfd : c.connection_failure_data with
      | none => simp only [connection_failure_error, hfd, Option.map_none']
      | some d =>
        simp only [connection_failure_error, hfd, Option.map_some']
        by_cases h3 : d.error = ""
        · rw [if_pos h3]
        · rw [if_neg h3]
          by_cases h4 : strContains d.error invalidClientMessage = false
          · rw [if_pos h4]
          · exfalso
            apply h
            refine ⟨h1, h2, d, hfd, ?_⟩
            cases hx : strContains d.error invalidClientMessage
            · exact absurd hx h4
            · rfl

theorem strContains_empty_false : strContains "" invalidClientMessage = false := by decide

theorem validateStep_eligible_reduce (app : ZoomOAuthApp)
    (refresh : ZoomOAuthConnection → Except PyError (Option String))
    (c : ZoomOAuthConnection) (h : sweepEligible app c) :
    validateStep app refresh c =
      (match refresh c with
        | .error _ => ⟨c, none, true⟩
        | .ok tok =>
          if pyTruthyStr tok = false then ⟨c, none, true⟩
          else ⟨{ c with state := .CONNECTED, connection_failure_data := none },
            some ⟨c.id, .CONNECTED⟩, true⟩) := by
  obtain ⟨h1, h2, d, hfd, hsub⟩ := h
  have h3 : d.error ≠ "" := by
    intro he
    rw [he, strContains_empty_false] at hsub
    exact absurd hsub (by simp)
  unfold validateStep
  rw [if_neg (not_not.mpr h1), if_neg (not_not.mpr h2)]
  simp only [connection_failure_error, hfd, Option.map_some']
  rw [if_neg h3, if_neg (by rw [hsub]; simp)]

theorem validateStep_eligible_err (app : ZoomOAuthApp)
    (refresh : ZoomOAuthConnection → Except PyError (Option String))
    (c : ZoomOAuthConnection) (e : PyError) (h : sweepEligible app c)
    (href : refresh c = .error e) :
    validateStep app refresh c = ⟨c, none, true⟩ := by
  rw [validateStep_eligible_reduce app refresh c h, href]

theorem validateStep_eligible_falsy (app : ZoomOAuthApp)
    (refresh : ZoomOAuthConnection → Except PyError (Option String))
    (c : ZoomOAuthConnection) (tok : Option String) (h : sweepEligible app c)
    (href : refresh c = .ok tok) (htok : pyTruthyStr tok = false) :
    validateStep app refresh c = ⟨c, none, true⟩ := by
  rw [validateStep_eligible_reduce app refresh c h, href]
  simp [htok]

theorem validateStep_eligible_ok (app : ZoomOAuthApp)
    (refresh : ZoomOAuthConnection → Except PyError (Option String))
    (c : ZoomOAuthConnection) (tok : Option String) (h : sweepEligible app c)
    (href : refresh c = .ok tok) (htok : pyTruthyStr tok = true) :
    validateStep app refresh c =
      ⟨{ c with state := .CONNECTED, connection_failure_data := none },
        some ⟨c.id, .CONNECTED⟩, true⟩ := by
  rw [validateStep_eligible_reduce app refresh c h, href]
  simp [htok]

theorem validateStep_attempted_iff (app : ZoomOAuthApp)
    (refresh : ZoomOAuthConnection → Except PyError (Option String))
    (c : ZoomOAuthConnection) :
    (validateStep app refresh c).attempted_refresh = true ↔ sweepEligible app c := by
  constructor
  · intro hat
    by_cases h : sweepEligible app c
    · exact h
    · rw [validateStep_ineligible app refresh c h] at hat
      exact absurd hat (by simp)
  · intro h
    cases href : refresh c with
    | error e => rw [validateStep_eligible_err app refresh c e h href]
    | ok tok =>
      cases htok : pyTruthyStr tok with
      | false => rw [validateStep_eligible_falsy app refresh c tok h href htok]
      | true => rw [validateStep_eligible_ok app refresh c tok h href htok]

/-- Claim C4: the validation sweep attempts a token refresh exactly for
the app's connections that are DISCONNECTED and whose stored
connection_failure_data error contains the invalid client id/secret
message; a connection for which no refresh is attempted is left
completely unmodified and gets no webhook. -/
theorem claim_C4_validation_scope :
    (∀ (app : ZoomOAuthApp)
        (refresh : ZoomOAuthConnection → Except PyError (Option String))
        (c : ZoomOAuthConnection),
      (validateStep app refresh c).attempted_refresh = true ↔
        (c.zoom_oauth_app_id = app.id ∧ c.state = .DISCONNECTED ∧
          ∃ d, c.connection_failure_data = some d ∧
            strContains d.error invalidClientMessage = true)) ∧
    (∀ (app : ZoomOAuthApp)
        (refresh : ZoomOAuthConnection → Except PyError (Option String))
        (c : ZoomOAuthConnection),
      (validateStep app refresh c).attempted_refresh = false →
      (validateStep app refresh c).conn = c ∧
      (validateStep app refresh c).webhook = none) := by
  constructor
  · intro app refresh c
    exact validateStep_attempted_iff app refresh c
  · intro app refresh c hat
    by_cases h : sweepEligible app c
    · rw [(validateStep_attempted_iff app refresh c).mpr h] at hat
      exact absurd hat (by simp)
    · rw [validateStep_ineligible app refresh c h]
      exact ⟨rfl, rfl⟩

/-- Claim C5: a failing token refresh (exception or falsy token) leaves
the connection — its state and failure data included — unchanged and
emits no webhook; a successful refresh on an attempted connection sets
the state to CONNECTED, clears the failure data and emits the
state-change webhook; and the sweep processes every connection of the
list independently, so no single failure aborts it. -/
theorem claim_C5_validation_resilience :
    (∀ (app : ZoomOAuthApp)
        (refresh : ZoomOAuthConnection → Except PyError (Option String))
        (c : ZoomOAuthConnection) (e : PyError),
      refresh c = .error e →
      (validateStep app refresh c).conn = c ∧
      (validateStep app refresh c).webhook = none) ∧
    (∀ (app : ZoomOAuthApp)
        (refresh : ZoomOAuthConnection → Except PyError (Option String))
        (c : ZoomOAuthConnection) (tok : Option String),
      refresh c = .ok tok → pyTruthyStr tok = false →
      (validateStep app refresh c).conn = c ∧
      (validateStep app refresh c).webhook = none) ∧
    (∀ (app : ZoomOAuthApp)
        (refresh : ZoomOAuthConnection → Except PyError (Option String))
        (c : ZoomOAuthConnection) (tok : Option String),
      (validateStep app refresh c).attempted_refresh = true →
      refresh c = .ok tok → pyTruthyStr tok = true →
      (validateStep app refresh c).conn =
        { c with state := .CONNECTED, connection_failure_data := none } ∧
      (validateStep app refresh c).webhook = some ⟨c.id, .CONNECTED⟩) ∧
    (∀ (app : ZoomOAuthApp)
        (refresh : ZoomOAuthConnection → Except PyError (Option String))
        (pre post : List ZoomOAuthConnection) (c : ZoomOAuthConnection),
      validate_zoom_oauth_connections app refresh (pre ++ c :: post) =
        validate_zoom_oauth_connections app refresh pre ++
          validateStep app refresh c ::
            validate_zoom_oauth_connections app refresh post) := by
  refine ⟨?_, ?_, ?_, ?_⟩
  · intro app refresh c e href
    by_cases h : sweepEligible app c
    · rw [validateStep_eligible_err app refresh c e h href]
      exact ⟨rfl, rfl⟩
    · rw [validateStep_ineligible app refresh c h]
      exact ⟨rfl, rfl⟩
  · intro app refresh c tok href htok
    by_cases h : sweepEligible app c
    · rw [validateStep_eligible_falsy app refresh c tok h href htok]
      exact ⟨rfl, rfl⟩
    · rw [validateStep_ineligible app refresh c h]
      exact ⟨rfl, rfl⟩
  · intro app refresh c tok hat href htok
    have h := (validateStep_attempted_iff app refresh c).mp hat
    rw [validateStep_eligible_ok app refresh c tok h href htok]
    exact ⟨rfl, rfl⟩
  · intro app refresh pre post c
    unfold validate_zoom_oauth_connections
    rw [List.map_append, List.map_cons]

/-- Sample app for the C6 scenario. -/
def c6app : ZoomOAuthApp := ⟨6, 60, some "cid6", some "secret6"⟩

/-- Sample connection for the C6 scenario: currently disconnected with
recorded failure data. -/
def c6conn : ZoomOAuthConnection :=
  ⟨6, "zoc_6", 6, .DISCONNECTED, some ⟨"boom", 2⟩, some ⟨some "rt6", []⟩,
    none, none, none⟩

/-- Sample environment for the C6 scenario: every outbound call of the
sync run succeeds. -/
def c6env : SyncEnv :=
  ⟨.success ⟨some "at6", none⟩, .ok [some "444"], .ok (some "555"), 7, 8⟩

/-- Counterexample for claim C6 as stated: a successful sync run on a
disconnected connection changes the state value (DISCONNECTED to
CONNECTED) yet dispatches no webhook, refuting the claimed equivalence
of webhook emission and state transition. -/
theorem claim_C6_counterexample :
    (sync_zoom_oauth_connection c6app c6conn [] c6env).conn.state ≠ c6conn.state ∧
    (sync_zoom_oauth_connection c6app c6conn [] c6env).webhooks = [] := by
  exact ⟨by decide, rfl⟩

/-- Claim C6 (amended): the sync task dispatches the state-change
webhook exactly when the run ends in the authentication-failure path
(the connection ends DISCONNECTED with nothing re-raised) — regardless
of whether the state value changed, and never on a successful run —
while the validation sweep dispatches it for a connection exactly when
that connection's state value changed. -/
theorem claim_C6_webhook_on_transition :
    (∀ (app : ZoomOAuthApp) (conn : ZoomOAuthConnection) (t : MappingTable)
        (env : SyncEnv),
      (sync_zoom_oauth_connection app conn t env).webhooks ≠ [] ↔
        ((sync_zoom_oauth_connection app conn t env).conn.state = .DISCONNECTED ∧
          (sync_zoom_oauth_connection app conn t env).raised = none)) ∧
    (∀ (app : ZoomOAuthApp)
        (refresh : ZoomOAuthConnection → Except PyError (Option String))
        (c : ZoomOAuthConnection),
      (validateStep app refresh c).webhook.isSome = true ↔
        (validateStep app refresh c).conn.state ≠ c.state) := by
  constructor
  · intro app conn t env
    cases hget : get_access_token app conn.credentials env.tokenResp with
    | error e =>
      cases e with
      | zoomAuth m => simp [sync_zoom_oauth_connection, hget]
      | other m => simp [sync_zoom_oauth_connection, hget]
    | ok p =>
      obtain ⟨tok, credsAfter⟩ := p
      cases hm : env.meetings with
      | error e =>
        cases e with
        | zoomAuth m2 => simp [sync_zoom_oauth_connection, hget, hm]
        | other m2 => simp [sync_zoom_oauth_connection, hget, hm]
      | ok ms =>
        cases hp : env.pmi with
        | error e =>
          cases e with
          | zoomAuth m2 => simp [sync_zoom_oauth_connection, hget, hm, hp]
          | other m2 => simp [sync_zoom_oauth_connection, hget, hm, hp]
        | ok pmi => simp [sync_zoom_oauth_connection, hget, hm, hp]
  · intro app refresh c
    by_cases h : sweepEligible app c
    · cases href : refresh c with
      | error e =>
        rw [validateStep_eligible_err app refresh c e h href]
        simp
      | ok tok =>
        cases htok : pyTruthyStr tok with
        | false =>
          rw [validateStep_eligible_falsy app refresh c tok h href htok]
          simp
        | true =>
          rw [validateStep_eligible_ok app refresh c tok h href htok]
          simp only [Option.isSome_some, true_iff]
          rw [h.2.1]
          simp
    · rw [validateStep_ineligible app refresh c h]
      simp

/-- Claim C10: both tasks preserve, for the connection they touch, the
invariant that the state is CONNECTED exactly when
connection_failure_data is null — the success paths write CONNECTED
with null failure data, the authentication path writes DISCONNECTED
with non-null failure data, and the generic-failure path of the sync
task leaves both fields exactly as they were. -/
theorem claim_C10_state_failure_invariant :
    (∀ (app : ZoomOAuthApp) (conn : ZoomOAuthConnection) (t : MappingTable)
        (env : SyncEnv),
      (conn.state = .CONNECTED ↔ conn.connection_failure_data = none) →
      ((sync_zoom_oauth_connection app conn t env).conn.state = .CONNECTED ↔
        (sync_zoom_oauth_connection app conn t env).conn.connection_failure_data =
          none)) ∧
    (∀ (app : ZoomOAuthApp)
        (refresh : ZoomOAuthConnection → Except PyError (Option String))
        (c : ZoomOAuthConnection),
      (c.state = .CONNECTED ↔ c.connection_failure_data = none) →
      ((validateStep app refresh c).conn.state = .CONNECTED ↔
        (validateStep app refresh c).conn.connection_failure_data = none)) ∧
    (∀ (app : ZoomOAuthApp) (conn : ZoomOAuthConnection) (t : MappingTable)
        (env : SyncEnv) (e : PyError),
      (sync_zoom_oauth_connection app conn t env).raised = some e →
      (sync_zoom_oauth_connection app conn t env).conn.state = conn.state ∧
      (sync_zoom_oauth_connection app conn t env).conn.connection_failure_data =
        conn.connection_failure_data) := by
  refine ⟨?_, ?_, ?_⟩
  · intro app conn t env hinv
    cases hget : get_access_token app conn.credentials env.tokenResp with
    | error e =>
      cases e with
      | zoomAuth m => simp [sync_zoom_oauth_connection, hget]
      | other m => simpa [sync_zoom_oauth_connection, hget] using hinv
    | ok p =>
      obtain ⟨tok, credsAfter⟩ := p
      cases hm : env.meetings with
      | error e =>
        cases e with
        | zoomAuth m2 => simp [sync_zoom_oauth_connection, hget, hm]
        | other m2 => simpa [sync_zoom_oauth_connection, hget, hm] using hinv
      | ok ms =>
        cases hp : env.pmi with
        | error e =>
          cases e with
          | zoomAuth m2 => simp [sync_zoom_oauth_connection, hget, hm, hp]
          | other m2 => simpa [sync_zoom_oauth_connection, hget, hm, hp] using hinv
        | ok pmi => simp [sync_zoom_oauth_connection, hget, hm, hp]
  · intro app refresh c hinv
    by_cases h : sweepEligible app c
    · cases href : refresh c with
      | error e =>
        rw [validateStep_eligible_err app refresh c e h href]
        exact hinv
      | ok tok =>
        cases htok : pyTruthyStr tok with
        | false =>
          rw [validateStep_eligible_falsy app refresh c tok h href htok]
          exact hinv
        | true =>
          rw [validateStep_eligible_ok app refresh c tok h href htok]
          simp
    · rw [validateStep_ineligible app refresh c h]
      exact hinv
  · intro app conn t env e hraised
    cases hget : get_access_token app conn.credentials env.tokenResp with
    | error e2 =>
      cases e2 with
      | zoomAuth m => simp [sync_zoom_oauth_connection, hget] at hraised
      | other m => simp [sync_zoom_oauth_connection, hget]
    | ok p =>
      obtain ⟨tok, credsAfter⟩ := p
      cases hm : env.meetings with
      | error e2 =>
        cases e2 with
        | zoomAuth m2 => simp [sync_zoom_oauth_connection, hget, hm] at hraised
        | other m2 => simp [sync_zoom_oauth_connection, hget, hm]
      | ok ms =>
        cases hp : env.pmi with
        | error e2 =>
          cases e2 with
          | zoomAuth m2 => simp [sync_zoom_oauth_connection, hget, hm, hp] at hraised
          | other m2 => simp [sync_zoom_oauth_connection, hget, hm, hp]
        | ok pmi => simp [sync_zoom_oauth_connection, hget, hm, hp] at hraised

/-! ## Project-scoped REST access (modelled from the spec) -/

/-- Modelled from the spec: the database the REST endpoints for zoom
oauth connections operate on — the registered apps (each belonging to
one project) and the connection rows (each belonging to one app). The
DRF list/detail/delete views and the create_zoom_oauth_connection
helper (bots/zoom_oauth_connections_api_utils.py) are not among the
provided sources; sections 3, 6 and 8 of the spec describe the
endpoints as authenticated by a project-scoped API key and returning
only that project's connections. -/
structure ApiDb where
  apps : List ZoomOAuthApp
  conns : List ZoomOAuthConnection
deriving Repr

/-- The project an app id belongs to, looked up in the app table. -/
def appProjectId (apps : List ZoomOAuthApp) (appId : Nat) : Option Nat :=
  (apps.find? (fun a => a.id == appId)).map (fun a => a.projectId)

/-- Modelled from the spec: the list endpoint under a key of the given
project returns the connections whose app belongs to that project. -/
def listZoomOAuthConnections (db : ApiDb) (projectId : Nat) : List ZoomOAuthConnection :=
  db.conns.filter
    (fun c => appProjectId db.apps c.zoom_oauth_app_id == some projectId)

/-- Modelled from the spec: the detail endpoint under a key of the
given project finds the connection with the requested object id within
that project, and answers 404 (none) otherwise. -/
def getZoomOAuthConnection (db : ApiDb) (projectId : Nat) (oid : String) :
    Option ZoomOAuthConnection :=
  db.conns.find? (fun c =>
    c.object_id == oid &&
      appProjectId db.apps c.zoom_oauth_app_id == some projectId)

/-- Modelled from the spec: the delete endpoint under a key of the
given project deletes the connection with the requested object id when
it belongs to that project, and answers 404 (false) otherwise. -/
def deleteZoomOAuthConnection (db : ApiDb) (projectId : Nat) (oid : String) :
    ApiDb × Bool :=
  match getZoomOAuthConnection db projectId oid with
  | none => (db, false)
  | some c => (⟨db.apps, db.conns.erase c⟩, true)

/-- Modelled from the spec: the create endpoint under a key of the
given project creates a connection for the requested app only when the
app exists in that project, and answers an error otherwise (the test
suite asserts the message mentions that the app does not exist in this
project). -/
def createZoomOAuthConnection (db : ApiDb) (projectId : Nat) (appId : Nat)
    (newConn : ZoomOAuthConnection) : Except String ApiDb :=
  if appProjectId db.apps appId = some projectId then
    .ok ⟨db.apps, { newConn with zoom_oauth_app_id := appId } :: db.conns⟩
  else
    .error "Zoom OAuth App does not exist in this project"

/-- Claim C9 (spec-modelled): API access is isolated per project —
listing returns only connections of the key's project; fetching
answers a connection only from the key's project; both are unaffected
by connections belonging to other projects; deleting under one
project's key never removes another project's connection; and creating
attaches the new connection to an app of the key's project only. -/
theorem claim_C9_project_isolation :
    (∀ (db : ApiDb) (p : Nat) (c : ZoomOAuthConnection),
      c ∈ listZoomOAuthConnections db p →
      appProjectId db.apps c.zoom_oauth_app_id = some p) ∧
    (∀ (db : ApiDb) (p : Nat) (oid : String) (c : ZoomOAuthConnection),
      getZoomOAuthConnection db p oid = some c →
      appProjectId db.apps c.zoom_oauth_app_id = some p) ∧
    (∀ (db : ApiDb) (p : Nat) (x : ZoomOAuthConnection),
      appProjectId db.apps x.zoom_oauth_app_id ≠ some p →
      listZoomOAuthConnections ⟨db.apps, x :: db.conns⟩ p =
        listZoomOAuthConnections db p) ∧
    (∀ (db : ApiDb) (p : Nat) (oid : String) (x : ZoomOAuthConnection),
      appProjectId db.apps x.zoom_oauth_app_id ≠ some p →
      getZoomOAuthConnection ⟨db.apps, x :: db.conns⟩ p oid =
        getZoomOAuthConnection db p oid) ∧
    (∀ (db : ApiDb) (p : Nat) (oid : String) (c : ZoomOAuthConnection),
      c ∈ db.conns → appProjectId db.apps c.zoom_oauth_app_id ≠ some p →
      c ∈ (deleteZoomOAuthConnection db p oid).1.conns) ∧
    (∀ (db : ApiDb) (p : Nat) (appId : Nat) (newConn : ZoomOAuthConnection)
        (db2 : ApiDb),
      createZoomOAuthConnection db p appId newConn = .ok db2 →
      appProjectId db.apps appId = some p) := by
  refine ⟨?_, ?_, ?_, ?_, ?_, ?_⟩
  · intro db p c hc
    have := (List.mem_filter.mp hc).2
    exact eq_of_beq this
  · intro db p oid c hc
    have := List.find?_some hc
    rw [Bool.and_eq_true] at this
    exact eq_of_beq this.2
  · intro db p x hx
    unfold listZoomOAuthConnections
    simp only [List.filter_cons]
    rw [if_neg (by simp [hx])]
  · intro db p oid x hx
    unfold getZoomOAuthConnection
    rw [List.find?_cons_of_neg]
    simp [hx]
  · intro db p oid c hc hcp
    unfold deleteZoomOAuthConnection
    cases hget : getZoomOAuthConnection db p oid with
    | none => exact hc
    | some c0 =>
      have hc0 : appProjectId db.apps c0.zoom_oauth_app_id = some p := by
        have := List.find?_some hget
        rw [Bool.and_eq_true] at this
        exact eq_of_beq this.2
      have hne : c ≠ c0 := by
        intro he
        rw [he] at hcp
        exact hcp hc0
      exact (List.mem_erase_of_ne hne).mpr hc
  · intro db p appId newConn db2 h
    by_cases hp : appProjectId db.apps appId = some p
    · exact hp
    · unfold createZoomOAuthConnection at h
      rw [if_neg hp] at h
      exact absurd h (by simp)
